import Mathlib

/-!
Shallow embedding of the Multilingual Live Transcription tool.

The embedding follows the Python source files:
- `app/asr/transcribe.py`  : `ASREngine.transcribe`
- `app/asr/translate.py`   : `translate_to_de`
- `app/io/autosave.py`     : `AutoSaver` (`write`, `rotate`, `close`)
- `app/gui/main_window.py` : the `MicWorker.run` loop body

External model engines (faster-whisper, MarianMT) are treated as black-box
functions passed in as parameters; machine floats (`time.time()`, detection
probabilities) are embedded as rationals; fallible operations return
`Except`/`Option` where the Python code can raise.
-/

namespace LiveTranscription

/-! ### Python-style string primitives

The Python source uses `str.lower`, `str.upper`, `str.strip` and
`str.startswith`; they are embedded as transparent functions on the
character list of a `String` so that concrete instances evaluate.
-/

/-- Python `s.lower()` (ASCII case folding, which covers language tags). -/
def pyLower (s : String) : String := ⟨s.data.map Char.toLower⟩

/-- Python `s.upper()` (ASCII case folding, which covers language tags). -/
def pyUpper (s : String) : String := ⟨s.data.map Char.toUpper⟩

/-- Python `s.strip()`: remove surrounding whitespace. -/
def pyStrip (s : String) : String :=
  ⟨((s.data.dropWhile Char.isWhitespace).reverse.dropWhile Char.isWhitespace).reverse⟩

/-- Python `s.startswith(p)`. -/
def pyStartswith (s p : String) : Bool := p.data.isPrefixOf s.data

/-- Python truthiness of an optional string (`None` and `""` are falsy). -/
def pyTruthy : Option String → Bool
  | none => false
  | some s => !(s == "")

/-- Python `a or b` where `a` is an optional string and `b` a string. -/
def pyOrStr : Option String → String → String
  | none, d => d
  | some s, d => if s = "" then d else s

/-- Python `a or b` where `a` is an optional float and `b` a float. -/
def pyOrRat : Option ℚ → ℚ → ℚ
  | none, d => d
  | some p, d => if p = 0 then d else p

/-! ### app/audio/capture.py -/

/-- Fixed target sample rate (`TARGET_SR = 16000`). -/
def TARGET_SR : Nat := 16000

/-! ### app/asr/transcribe.py -/

/-- One segment returned by the recognition backend (only its text matters
to the orchestration code). -/
structure Segment where
  text : String
deriving Repr, DecidableEq

/-- The `info` object returned by `WhisperModel.transcribe`: detected
language and detection probability, each possibly absent. -/
structure WhisperInfo where
  language : Option String
  language_probability : Option ℚ
deriving Repr, DecidableEq

/-- The tuple returned by `ASREngine.transcribe`:
`(text, lang, prob, segments)`. -/
structure TranscriptionResult where
  text : String
  lang : String
  prob : ℚ
  segments : List Segment
deriving Repr, DecidableEq

/-- The black-box recognition backend `self.model.transcribe`, as a function
of the audio block and the `language=` argument passed to it. -/
abbrev WhisperBackend := List ℚ → Option String → List Segment × WhisperInfo

/-- Embedding of `ASREngine.transcribe` (transcribe.py lines 28-51).
Note the source default of the keyword-only parameter:
`forced_lang: str | None = "de"`. -/
def ASREngine.transcribe (backend : WhisperBackend) (audio : List ℚ) (sr : Nat)
    (forced_lang : Option String := some "de") : Except String TranscriptionResult :=
  if sr ≠ 16000 then
    .error ("Whisper expects 16 kHz mono audio (got " ++ toString sr ++ " Hz)")
  else
    let res := backend audio forced_lang
    let segments := res.1
    let info := res.2
    let text := pyStrip (String.join (segments.map Segment.text))
    let lang := pyLower (pyOrStr forced_lang (pyOrStr info.language ""))
    let prob := if pyTruthy forced_lang then 0 else pyOrRat info.language_probability 0
    .ok ⟨text, lang, prob, segments⟩

/-! ### app/asr/translate.py -/

/-- The black-box Marian generation pipeline (`_load` + tokenize + generate +
decode), as a function of the model identifier and the input text; it may
raise (model download, tokenizer, generation), hence `Except`. -/
abbrev MarianGen := String → String → Except String String

/-- Embedding of `translate_to_de` (translate.py lines 10-23).  The source
annotates `src_lang : str` but guards with `(src_lang or "")`, so the
embedding accepts an optional string. -/
def translate_to_de (gen : MarianGen) (text : String) (src_lang : Option String) :
    Except String String :=
  if pyStrip text = "" then .ok ""
  else
    let s := pyLower (pyOrStr src_lang "")
    if pyStartswith s "pl" then gen "Helsinki-NLP/opus-mt-pl-de" text
    else if pyStartswith s "sk" then gen "Helsinki-NLP/opus-mt-sk-de" text
    else .ok ""

/-! ### app/io/autosave.py

A file handle is a named line buffer with an open flag.  `AutoSaver.handles`
records every handle ever created by `open(...)`; `fh` is the index of the
handle currently held in `self._fh` (or `none` after `close`).  Wall-clock
readings (`time.time()`, `strftime` outputs) are explicit arguments.
-/

/-- One file created by the saver: its name, its written lines, and whether
the underlying OS handle is still open. -/
structure Handle where
  name : String
  lines : List String
  isOpen : Bool
deriving Repr, DecidableEq

/-- State of an `AutoSaver`: rotation interval in seconds, rotation index
`idx`, time of last rotation `t0`, the current handle index `fh`, and all
files created so far. -/
structure AutoSaver where
  interval : ℚ
  idx : Nat
  t0 : ℚ
  fh : Option Nat
  handles : List Handle
deriving Repr, DecidableEq

/-- File name `f"talk{self.idx}-{ts}.txt"` from `_open_new`. -/
def sessionFileName (idx : Nat) (hhmm : String) : String :=
  "talk" ++ toString idx ++ "-" ++ hhmm ++ ".txt"

/-- Header line `f"# Session started {datetime.now().isoformat()}"`. -/
def sessionHeader (iso : String) : String :=
  "# Session started " ++ iso

/-- Embedding of `AutoSaver._open_new`: open a fresh file named from the
current index and time-of-day, write the header line, flush, and point
`_fh` at it.  The previous handle (if any) is not touched. -/
def AutoSaver.openNew (s : AutoSaver) (hhmm iso : String) : AutoSaver :=
  { s with
    handles := s.handles ++ [⟨sessionFileName s.idx hhmm, [sessionHeader iso], true⟩],
    fh := some s.handles.length }

/-- Embedding of `AutoSaver.__init__`: interval minutes are converted to
seconds, the index starts at 1, the rotation clock starts now, and
`_open_new` is called once. -/
def AutoSaver.init (intervalMinutes : Nat) (now : ℚ) (hhmm iso : String) : AutoSaver :=
  AutoSaver.openNew ⟨(intervalMinutes : ℚ) * 60, 1, now, none, []⟩ hhmm iso

/-- Mark the handle at index `i` closed (Python `file.close()`, a no-op on
an already closed file). -/
def closeHandleAt (hs : List Handle) (i : Nat) : List Handle :=
  match hs[i]? with
  | none => hs
  | some h => hs.set i { h with isOpen := false }

/-- Embedding of `AutoSaver.rotate`: close the current handle, increment the
index, reset the rotation clock, open a new file.  If `_fh` is `None`
(only possible after `close`), Python raises `AttributeError`, hence
`none`. -/
def AutoSaver.rotate (s : AutoSaver) (now : ℚ) (hhmm iso : String) : Option AutoSaver :=
  match s.fh with
  | none => none
  | some i =>
    some (AutoSaver.openNew
      { s with handles := closeHandleAt s.handles i, idx := s.idx + 1, t0 := now }
      hhmm iso)

/-- Embedding of `AutoSaver.write`: append `line` to the current file and
flush; then, if wall time since the last rotation has reached the interval,
rotate.  A `None` or closed handle makes Python raise, hence `none`. -/
def AutoSaver.write (s : AutoSaver) (line : String) (now : ℚ) (hhmm iso : String) :
    Option AutoSaver :=
  match s.fh with
  | none => none
  | some i =>
    match s.handles[i]? with
    | none => none
    | some h =>
      if h.isOpen then
        let s1 : AutoSaver :=
          { s with handles := s.handles.set i { h with lines := h.lines ++ [line] } }
        if s1.interval ≤ now - s1.t0 then s1.rotate now hhmm iso else some s1
      else none

/-- Embedding of `AutoSaver.close`: close the handle if one is held and
forget it; a second call is a no-op. -/
def AutoSaver.close (s : AutoSaver) : AutoSaver :=
  match s.fh with
  | none => s
  | some i => { s with handles := closeHandleAt s.handles i, fh := none }

/-- One externally invokable sink operation, with the wall-clock readings it
consumes. -/
inductive SinkOp where
  | write (line : String) (now : ℚ) (hhmm iso : String)
  | rotate (now : ℚ) (hhmm iso : String)
  | close
deriving Repr

/-- Apply one sink operation. -/
def AutoSaver.step (s : AutoSaver) : SinkOp → Option AutoSaver
  | .write line now hhmm iso => s.write line now hhmm iso
  | .rotate now hhmm iso => s.rotate now hhmm iso
  | .close => some s.close

/-- Apply a sequence of sink operations; a raised exception (`none`) aborts
the run. -/
def AutoSaver.runOps (s : AutoSaver) : List SinkOp → Option AutoSaver
  | [] => some s
  | op :: ops => (s.step op).bind (fun s' => s'.runOps ops)

/-- Number of open handles of the saver. -/
def openCount (hs : List Handle) : Nat := hs.countP (·.isOpen)

/-- The handle invariant of a saver: a file is open exactly when the saver
currently holds it. -/
def AutoSaver.Inv (s : AutoSaver) : Prop :=
  ∀ (j : Nat) (h : Handle), s.handles[j]? = some h → (h.isOpen = true ↔ s.fh = some j)

/-! ### app/gui/main_window.py : the MicWorker.run loop body -/

/-- The allowed-language tuple of `MicWorker.run` line 90:
`("de", "en", "pl", "sk")`. -/
def allowedLangs : List String := ["de", "en", "pl", "sk"]

/-- The fallback condition of `MicWorker.run` line 90:
`self.force_de_flag() and (lang not in ("de","en","pl","sk") or prob < 0.60)`. -/
def fallbackTriggered (forceDe : Bool) (lang : String) (prob : ℚ) : Bool :=
  forceDe && (!(allowedLangs.contains lang) || decide (prob < 0.60))

/-- Lines 89-91 of `MicWorker.run`: transcribe with automatic detection,
then possibly one forced-German second pass. -/
def MicWorker.recognize (forceDe : Bool) (backend : WhisperBackend) (audio16 : List ℚ) :
    Except String TranscriptionResult := do
  let r1 ← ASREngine.transcribe backend audio16 TARGET_SR none
  if fallbackTriggered forceDe r1.lang r1.prob then
    ASREngine.transcribe backend audio16 TARGET_SR (some "de")
  else
    pure r1

/-- Line 95 of `MicWorker.run`:
`f"[{time.strftime(...)}] Speaker 1 (You) ({lang_up}): {text}"`. -/
def formatLine (hms lang text : String) : String :=
  "[" ++ hms ++ "] Speaker 1 (You) (" ++ pyUpper lang ++ "): " ++ text

/-- Line 100 of `MicWorker.run`: the appended continuation
`f"\n               → DE: {tr}"`. -/
def translationSuffix (tr : String) : String :=
  "\n               → DE: " ++ tr

/-- Per-iteration inputs of the loop that come from the outside world: the
captured audio block and the wall-clock readings taken during the
iteration. -/
structure CycleInput where
  audio16 : List ℚ
  hms : String
  now : ℚ
  hhmm : String
  iso : String

/-- One iteration of the `MicWorker.run` while-loop body (lines 88-104),
from a captured block to the emitted line and the updated saver.  Returns
`(none, saver)` for the `continue` on empty text; a failed sink write
surfaces as an exception, as in Python. -/
def MicWorker.runCycle (translateFlag forceDe : Bool) (backend : WhisperBackend)
    (gen : MarianGen) (c : CycleInput) (saver : AutoSaver) :
    Except String (Option String × AutoSaver) := do
  let r ← MicWorker.recognize forceDe backend c.audio16
  if r.text = "" then
    return (none, saver)
  else
    let line := formatLine c.hms r.lang r.text
    let line :=
      if translateFlag && ["pl", "sk"].contains r.lang then
        match translate_to_de gen r.text (some r.lang) with
        | .error _ => line
        | .ok tr => if tr ≠ "" then line ++ translationSuffix tr else line
      else line
    match saver.write line c.now c.hhmm c.iso with
    | none => .error "I/O operation on closed file"
    | some saver' => return (some line, saver')

/-- The while-loop of `MicWorker.run` over a finite schedule of iteration
inputs, collecting the emitted lines and threading the saver state. -/
def MicWorker.runLoop (translateFlag forceDe : Bool) (backend : WhisperBackend)
    (gen : MarianGen) : List CycleInput → AutoSaver → Except String (List String × AutoSaver)
  | [], saver => .ok ([], saver)
  | c :: cs, saver => do
    let (out, saver') ← MicWorker.runCycle translateFlag forceDe backend gen c saver
    let (lines, saverF) ← MicWorker.runLoop translateFlag forceDe backend gen cs saver'
    match out with
    | none => .ok (lines, saverF)
    | some l => .ok (l :: lines, saverF)

/-! ### Concrete instances used by witnesses and counterexamples -/

/-- A backend that detects French with full confidence, and recognizes
German text when a language is forced. -/
def frBackendC1 : WhisperBackend := fun _ fl =>
  match fl with
  | none => ([⟨" Bonjour"⟩], ⟨some "fr", some 1⟩)
  | some _ => ([⟨" Hallo"⟩], ⟨some "de", some 1⟩)

/-- A backend that detects French with full confidence, used to exhibit the
default value of the forced-language parameter. -/
def frBackendC2 : WhisperBackend := fun _ fl =>
  match fl with
  | none => ([⟨" Bonjour"⟩], ⟨some "fr", some 1⟩)
  | some _ => ([⟨" Hallo"⟩], ⟨some "de", some 1⟩)

/-- A backend that detects Polish with full confidence. -/
def plBackendC7 : WhisperBackend := fun _ fl =>
  match fl with
  | none => ([⟨" czesc"⟩], ⟨some "pl", some 1⟩)
  | some _ => ([⟨" hallo"⟩], ⟨some "de", some 1⟩)

/-- A backend that returns no segments at all (a silent block). -/
def silentBackendC8 : WhisperBackend := fun _ _ => ([], ⟨none, none⟩)

/-- A generation pipeline that always raises. -/
def failingGenC7 : MarianGen := fun _ _ => .error "backend failure"

/-- A generation pipeline that tags its input, to observe which model
identifier was selected (C6). -/
def taggingGenC6 : MarianGen := fun model text => .ok (model ++ ":" ++ text)

/-- A generation pipeline that tags its input, to observe which model
identifier was selected (C10). -/
def taggingGenC10 : MarianGen := fun model text => .ok (model ++ ":" ++ text)

/-- A generation pipeline that succeeds with its input (C8 witness; never
reached there). -/
def okGenC8 : MarianGen := fun _ text => .ok text

/-- A backend detecting German with full confidence (C4 witness). -/
def deBackendC4 : WhisperBackend := fun _ fl =>
  match fl with
  | none => ([⟨" Guten Tag"⟩], ⟨some "de", some 1⟩)
  | some _ => ([⟨" Hallo"⟩], ⟨some "de", some 1⟩)

/-- A backend recognizing a fixed German greeting (C5 witness). -/
def deBackendC5 : WhisperBackend := fun _ _ => ([⟨" Hallo"⟩], ⟨some "de", some 1⟩)

/-! ### Shared helper lemmas -/

/-- Python `(o or "")` agrees with `Option.getD` on strings. -/
theorem pyOrStr_empty (o : Option String) : pyOrStr o "" = o.getD "" := by
  cases o with
  | none => rfl
  | some s =>
    by_cases h : s = "" <;> simp [pyOrStr, h]

/-- Python `(o or 0.0)` agrees with `Option.getD` on rationals. -/
theorem pyOrRat_zero (o : Option ℚ) : pyOrRat o 0 = o.getD 0 := by
  cases o with
  | none => rfl
  | some p =>
    by_cases h : p = 0 <;> simp [pyOrRat, h]

/-- A string starting with "sk" does not start with "pl". -/
theorem pl_sk_disjoint (s : String) :
    pyStartswith s "sk" = true → pyStartswith s "pl" = false := by
  unfold pyStartswith
  intro h
  match hd : s.data with
  | [] =>
    rw [hd] at h
    exact absurd h (by decide)
  | a :: t =>
    rw [hd] at h
    have ha : a = 's' := by
      rw [show ("sk".data) = ['s', 'k'] from rfl] at h
      simp only [List.isPrefixOf, Bool.and_eq_true, beq_iff_eq] at h
      exact h.1.symm
    subst ha
    rw [show ("pl".data) = ['p', 'l'] from rfl]
    simp only [List.isPrefixOf]
    rw [show (('p' == 's') : Bool) = false from rfl]
    simp

/-! ### Claim theorems -/

/-- C2 (counterexample): the `forced_lang` parameter of
`ASREngine.transcribe` does not default to none/absent.  Omitting it is the
same as passing `some "de"`: on a backend that would detect French with
full confidence, the call without the argument returns forced German with
confidence 0, which differs from the automatic-detection result. -/
theorem transcribe_default_not_auto :
    ASREngine.transcribe frBackendC2 [] 16000 =
      ASREngine.transcribe frBackendC2 [] 16000 (some "de") ∧
    ASREngine.transcribe frBackendC2 [] 16000 =
      .ok ⟨"Hallo", "de", 0, [⟨" Hallo"⟩]⟩ ∧
    ASREngine.transcribe frBackendC2 [] 16000 none =
      .ok ⟨"Bonjour", "fr", 1, [⟨" Bonjour"⟩]⟩ ∧
    (⟨"Hallo", "de", 0, [⟨" Hallo"⟩]⟩ : TranscriptionResult) ≠
      ⟨"Bonjour", "fr", 1, [⟨" Bonjour"⟩]⟩ :=
  ⟨rfl, rfl, rfl, by decide⟩

/-- C2 (amended): `forced_lang` defaults to `"de"`, so a call that omits it
forces German; automatic detection happens exactly when the caller passes
`none` explicitly, in which case the language is the backend-detected one
(lower-cased, empty if absent) and the confidence is the backend-reported
probability. -/
theorem transcribe_default_is_de (backend : WhisperBackend) (audio : List ℚ) (sr : Nat) :
    ASREngine.transcribe backend audio sr =
      ASREngine.transcribe backend audio sr (some "de") ∧
    ∀ r, ASREngine.transcribe backend audio sr none = .ok r →
      r.lang = pyLower ((backend audio none).2.language.getD "") ∧
      r.prob = ((backend audio none).2.language_probability).getD 0 := by
  refine ⟨rfl, ?_⟩
  intro r h
  unfold ASREngine.transcribe at h
  by_cases hsr : sr ≠ 16000
  · rw [if_pos hsr] at h
    exact absurd h (by simp)
  · rw [if_neg hsr] at h
    simp only [Except.ok.injEq] at h
    subst h
    refine ⟨?_, ?_⟩
    · show pyLower (pyOrStr none (pyOrStr (backend audio none).2.language "")) = _
      rw [pyOrStr_empty]
      rfl
    · show (if pyTruthy none then 0 else pyOrRat (backend audio none).2.language_probability 0) = _
      rw [if_neg (by simp [pyTruthy])]
      exact pyOrRat_zero _

/-- C2 (witness): the amended theorem at a concrete backend, sample rate
16000, with the automatic-detection hypothesis discharged on the French
detection result. -/
theorem transcribe_default_is_de_witness :
    ASREngine.transcribe frBackendC2 [] 16000 =
      ASREngine.transcribe frBackendC2 [] 16000 (some "de") ∧
    ((⟨"Bonjour", "fr", 1, [⟨" Bonjour"⟩]⟩ : TranscriptionResult).lang =
        pyLower ((frBackendC2 [] none).2.language.getD "") ∧
     (⟨"Bonjour", "fr", 1, [⟨" Bonjour"⟩]⟩ : TranscriptionResult).prob =
        ((frBackendC2 [] none).2.language_probability).getD 0) :=
  ⟨(transcribe_default_is_de frBackendC2 [] 16000).1,
   (transcribe_default_is_de frBackendC2 [] 16000).2 _ rfl⟩

/-- C4: whenever a (non-empty) forced language is supplied, the returned
confidence is 0; without a forced language it is the backend-reported
detection probability, defaulting to 0 when absent. -/
theorem transcribe_confidence_rule :
    (∀ (backend : WhisperBackend) (audio : List ℚ) (sr : Nat) (l : String)
        (r : TranscriptionResult), l ≠ "" →
        ASREngine.transcribe backend audio sr (some l) = .ok r → r.prob = 0) ∧
    (∀ (backend : WhisperBackend) (audio : List ℚ) (sr : Nat) (r : TranscriptionResult),
        ASREngine.transcribe backend audio sr none = .ok r →
        r.prob = ((backend audio none).2.language_probability).getD 0) := by
  constructor
  · intro backend audio sr l r hl h
    unfold ASREngine.transcribe at h
    by_cases hsr : sr ≠ 16000
    · rw [if_pos hsr] at h
      exact absurd h (by simp)
    · rw [if_neg hsr] at h
      simp only [Except.ok.injEq] at h
      subst h
      show (if pyTruthy (some l) then 0 else pyOrRat (backend audio (some l)).2.language_probability 0) = 0
      rw [if_pos (by simp [pyTruthy, hl])]
  · intro backend audio sr r h
    unfold ASREngine.transcribe at h
    by_cases hsr : sr ≠ 16000
    · rw [if_pos hsr] at h
      exact absurd h (by simp)
    · rw [if_neg hsr] at h
      simp only [Except.ok.injEq] at h
      subst h
      show (if pyTruthy none then 0 else pyOrRat (backend audio none).2.language_probability 0) = _
      rw [if_neg (by simp [pyTruthy])]
      exact pyOrRat_zero _

/-- C4 (witness): both halves at a concrete backend: the forced-"de" call
returns confidence 0, the automatic call returns the detection
probability 1. -/
theorem transcribe_confidence_rule_witness :
    ("de" ≠ "") ∧
    (⟨"Hallo", "de", 0, [⟨" Hallo"⟩]⟩ : TranscriptionResult).prob = 0 ∧
    (⟨"Guten Tag", "de", 1, [⟨" Guten Tag"⟩]⟩ : TranscriptionResult).prob =
      ((deBackendC4 [] none).2.language_probability).getD 0 :=
  ⟨by decide,
   transcribe_confidence_rule.1 deBackendC4 [] 16000 "de" _ (by decide) rfl,
   transcribe_confidence_rule.2 deBackendC4 [] 16000 _ rfl⟩

/-- C5: `transcribe` fails with the sample-rate-mismatch error exactly when
the sample rate is not 16000; the error does not depend on the backend
(the backend is not invoked), and at 16000 Hz the call succeeds. -/
theorem transcribe_sample_rate_check (sr : Nat) (audio : List ℚ) (fl : Option String) :
    (sr ≠ 16000 → ∀ backend : WhisperBackend,
        ASREngine.transcribe backend audio sr fl =
          .error ("Whisper expects 16 kHz mono audio (got " ++ toString sr ++ " Hz)")) ∧
    (sr = 16000 → ∀ backend : WhisperBackend,
        ∃ r, ASREngine.transcribe backend audio sr fl = .ok r) := by
  constructor
  · intro h backend
    unfold ASREngine.transcribe
    rw [if_pos h]
  · intro h backend
    subst h
    exact ⟨_, rfl⟩

/-- C5 (witness): a 44100 Hz call fails with the mismatch error for a
concrete backend, and the same call at 16000 Hz succeeds. -/
theorem transcribe_sample_rate_check_witness :
    ASREngine.transcribe deBackendC5 [] 44100 none =
      .error ("Whisper expects 16 kHz mono audio (got " ++ toString (44100 : Nat) ++ " Hz)") ∧
    ∃ r, ASREngine.transcribe deBackendC5 [] 16000 none = .ok r :=
  ⟨(transcribe_sample_rate_check 44100 [] none).1 (by decide) deBackendC5,
   (transcribe_sample_rate_check 16000 [] none).2 rfl deBackendC5⟩

/-- C6: `translate_to_de` returns the empty string for blank input
(whatever the source language) and for any source language whose
(lower-cased) prefix is neither "pl" nor "sk"; only non-blank text with a
"pl" or "sk" prefix reaches a translation model, and the result is then
exactly the output of the selected model on the text. -/
theorem translate_allow_list :
    (∀ (gen : MarianGen) (text : String) (src : Option String),
        pyStrip text = "" → translate_to_de gen text src = .ok "") ∧
    (∀ (gen : MarianGen) (text : String) (src : Option String),
        pyStartswith (pyLower (pyOrStr src "")) "pl" = false →
        pyStartswith (pyLower (pyOrStr src "")) "sk" = false →
        translate_to_de gen text src = .ok "") ∧
    (∀ (gen : MarianGen) (text : String) (src : Option String),
        pyStrip text ≠ "" →
        pyStartswith (pyLower (pyOrStr src "")) "pl" = true →
        translate_to_de gen text src = gen "Helsinki-NLP/opus-mt-pl-de" text) ∧
    (∀ (gen : MarianGen) (text : String) (src : Option String),
        pyStrip text ≠ "" →
        pyStartswith (pyLower (pyOrStr src "")) "sk" = true →
        translate_to_de gen text src = gen "Helsinki-NLP/opus-mt-sk-de" text) := by
  refine ⟨?_, ?_, ?_, ?_⟩
  · intro gen text src h
    unfold translate_to_de
    rw [if_pos h]
  · intro gen text src h1 h2
    unfold translate_to_de
    by_cases hs : pyStrip text = ""
    · rw [if_pos hs]
    · rw [if_neg hs]
      simp only [h1, h2, Bool.false_eq_true, if_false]
  · intro gen text src h h1
    unfold translate_to_de
    rw [if_neg h]
    simp only [h1, if_true]
  · intro gen text src h h2
    unfold translate_to_de
    rw [if_neg h]
    simp only [pl_sk_disjoint _ h2, h2, Bool.false_eq_true, if_false, if_true]

/-- C6 (witness): the four cases at concrete inputs: blank text, a French
source language, and non-blank Polish / Slovak text reaching the
corresponding model. -/
theorem translate_allow_list_witness :
    translate_to_de taggingGenC6 "   " (some "pl") = .ok "" ∧
    translate_to_de taggingGenC6 "hello" (some "fr") = .ok "" ∧
    translate_to_de taggingGenC6 "czesc" (some "pl") =
      taggingGenC6 "Helsinki-NLP/opus-mt-pl-de" "czesc" ∧
    translate_to_de taggingGenC6 "ahoj" (some "sk") =
      taggingGenC6 "Helsinki-NLP/opus-mt-sk-de" "ahoj" :=
  ⟨translate_allow_list.1 taggingGenC6 "   " (some "pl") (by decide),
   translate_allow_list.2.1 taggingGenC6 "hello" (some "fr") (by decide) (by decide),
   translate_allow_list.2.2.1 taggingGenC6 "czesc" (some "pl") (by decide) (by decide),
   translate_allow_list.2.2.2 taggingGenC6 "ahoj" (some "sk") (by decide) (by decide)⟩

/-- C10: the result of `translate_to_de` depends on the source language
only through lower-casing of `(src_lang or "")` — so mixed-case tags select
the same model as their lowercase form — and a `None` source language
yields the empty string (no exception) for every text. -/
theorem translate_case_insensitive :
    (∀ (gen : MarianGen) (text : String) (s₁ s₂ : Option String),
        pyLower (pyOrStr s₁ "") = pyLower (pyOrStr s₂ "") →
        translate_to_de gen text s₁ = translate_to_de gen text s₂) ∧
    (∀ (gen : MarianGen) (text : String),
        translate_to_de gen text none = .ok "") := by
  constructor
  · intro gen text s₁ s₂ h
    unfold translate_to_de
    rw [h]
  · intro gen text
    unfold translate_to_de
    by_cases hs : pyStrip text = ""
    · rw [if_pos hs]
    · rw [if_neg hs]
      rfl

/-- C10 (witness): "PL" and "Sk" behave as their lowercase forms, and a
`None` source language returns the empty string on concrete text. -/
theorem translate_case_insensitive_witness :
    translate_to_de taggingGenC10 "hello" (some "PL") =
      translate_to_de taggingGenC10 "hello" (some "pl") ∧
    translate_to_de taggingGenC10 "hello" (some "Sk") =
      translate_to_de taggingGenC10 "hello" (some "sk") ∧
    translate_to_de taggingGenC10 "hello" none = .ok "" :=
  ⟨translate_case_insensitive.1 taggingGenC10 "hello" (some "PL") (some "pl") (by decide),
   translate_case_insensitive.1 taggingGenC10 "hello" (some "Sk") (some "sk") (by decide),
   translate_case_insensitive.2 taggingGenC10 "hello"⟩

/-- Bind on a successful `Except` computation reduces to the continuation. -/
theorem exceptBind_ok {α β : Type} (a : α) (f : α → Except String β) :
    (Except.ok a : Except String α) >>= f = f a := rfl

/-- The fallback trigger as a proposition: the flag is set and the detected
language or confidence is unacceptable. -/
theorem fallbackTriggered_iff (forceDe : Bool) (lang : String) (prob : ℚ) :
    fallbackTriggered forceDe lang prob = true ↔
      (forceDe = true ∧ (lang ∉ allowedLangs ∨ prob < 0.60)) := by
  simp [fallbackTriggered]

/-- C1 (counterexample): with the force-German option disabled, an
utterance detected as French with confidence 1 satisfies the
language-outside-the-allowed-set condition, yet no forced-"de" second pass
replaces the result: the cycle keeps the auto-detected French result,
which differs from the forced-German result. -/
theorem fallback_requires_flag :
    ("fr" ∉ allowedLangs) ∧ ¬ ((1 : ℚ) < 0.60) ∧
    ASREngine.transcribe frBackendC1 [] TARGET_SR none =
      .ok ⟨"Bonjour", "fr", 1, [⟨" Bonjour"⟩]⟩ ∧
    MicWorker.recognize false frBackendC1 [] =
      .ok ⟨"Bonjour", "fr", 1, [⟨" Bonjour"⟩]⟩ ∧
    ASREngine.transcribe frBackendC1 [] TARGET_SR (some "de") =
      .ok ⟨"Hallo", "de", 0, [⟨" Hallo"⟩]⟩ ∧
    (⟨"Bonjour", "fr", 1, [⟨" Bonjour"⟩]⟩ : TranscriptionResult) ≠
      ⟨"Hallo", "de", 0, [⟨" Hallo"⟩]⟩ :=
  ⟨by decide, by norm_num, rfl, rfl, rfl, by decide⟩

/-- C1 (amended): in a transcription cycle the forced-"de" second pass is
taken if and only if the force-German option is enabled AND the
auto-detected language is outside {de, en, pl, sk} or its confidence is
below 0.60; in that case the second result replaces the first, otherwise
the first is returned unchanged, and the cycle result is always one of the
two single calls (never a third pass). -/
theorem fallback_policy (forceDe : Bool) (backend : WhisperBackend) (audio : List ℚ)
    (r1 : TranscriptionResult)
    (h1 : ASREngine.transcribe backend audio TARGET_SR none = .ok r1) :
    (MicWorker.recognize forceDe backend audio =
        if forceDe = true ∧ (r1.lang ∉ allowedLangs ∨ r1.prob < 0.60) then
          ASREngine.transcribe backend audio TARGET_SR (some "de")
        else .ok r1) ∧
    (MicWorker.recognize forceDe backend audio = .ok r1 ∨
      MicWorker.recognize forceDe backend audio =
        ASREngine.transcribe backend audio TARGET_SR (some "de")) := by
  have hrec : MicWorker.recognize forceDe backend audio =
      if fallbackTriggered forceDe r1.lang r1.prob then
        ASREngine.transcribe backend audio TARGET_SR (some "de")
      else .ok r1 := by
    unfold MicWorker.recognize
    rw [h1, exceptBind_ok]
    rfl
  constructor
  · rw [hrec]
    exact if_congr (fallbackTriggered_iff forceDe r1.lang r1.prob) rfl rfl
  · rw [hrec]
    by_cases hf : fallbackTriggered forceDe r1.lang r1.prob = true
    · right
      rw [if_pos hf]
    · left
      rw [if_neg hf]

/-- C1 (witness): the amended theorem at the concrete French-detecting
backend with the option enabled; the auto-detection hypothesis is
discharged by evaluation. -/
theorem fallback_policy_witness :
    (MicWorker.recognize true frBackendC1 [] =
        if true = true ∧
            ((⟨"Bonjour", "fr", 1, [⟨" Bonjour"⟩]⟩ : TranscriptionResult).lang ∉ allowedLangs ∨
              (⟨"Bonjour", "fr", 1, [⟨" Bonjour"⟩]⟩ : TranscriptionResult).prob < 0.60) then
          ASREngine.transcribe frBackendC1 [] TARGET_SR (some "de")
        else .ok ⟨"Bonjour", "fr", 1, [⟨" Bonjour"⟩]⟩) ∧
    (MicWorker.recognize true frBackendC1 [] = .ok ⟨"Bonjour", "fr", 1, [⟨" Bonjour"⟩]⟩ ∨
      MicWorker.recognize true frBackendC1 [] =
        ASREngine.transcribe frBackendC1 [] TARGET_SR (some "de")) :=
  fallback_policy true frBackendC1 [] ⟨"Bonjour", "fr", 1, [⟨" Bonjour"⟩]⟩ rfl

/-- C7: if the translation backend raises during the translation step of a
cycle whose (post-fallback) text is non-empty and whose language is in the
translation allow-list, the exception is swallowed: the primary line —
with no translation continuation — is still emitted and written to the
sink, and the loop carries on with the remaining iterations. -/
theorem translation_error_degrades (forceDe : Bool) (backend : WhisperBackend)
    (gen : MarianGen) (c : CycleInput) (saver saver' : AutoSaver)
    (r : TranscriptionResult) (e : String)
    (hrec : MicWorker.recognize forceDe backend c.audio16 = .ok r)
    (htext : r.text ≠ "")
    (hlang : r.lang = "pl" ∨ r.lang = "sk")
    (herr : translate_to_de gen r.text (some r.lang) = .error e)
    (hw : saver.write (formatLine c.hms r.lang r.text) c.now c.hhmm c.iso = some saver') :
    MicWorker.runCycle true forceDe backend gen c saver =
      .ok (some (formatLine c.hms r.lang r.text), saver') ∧
    ∀ cs, MicWorker.runLoop true forceDe backend gen (c :: cs) saver =
      Except.map (fun p => (formatLine c.hms r.lang r.text :: p.1, p.2))
        (MicWorker.runLoop true forceDe backend gen cs saver') := by
  have hc : (["pl", "sk"].contains r.lang) = true := by
    rcases hlang with h | h <;> rw [h] <;> decide
  have hcyc : MicWorker.runCycle true forceDe backend gen c saver =
      .ok (some (formatLine c.hms r.lang r.text), saver') := by
    unfold MicWorker.runCycle
    rw [hrec, exceptBind_ok, if_neg htext]
    simp only [hc, Bool.and_self, if_true, herr, hw]
    rfl
  refine ⟨hcyc, ?_⟩
  intro cs
  simp only [MicWorker.runLoop]
  rw [hcyc, exceptBind_ok]
  cases hrest : MicWorker.runLoop true forceDe backend gen cs saver' with
  | error e2 => rfl
  | ok p =>
    obtain ⟨lines, saverF⟩ := p
    rfl

/-- C7 (witness): Polish detection, a raising translation backend, and a
fresh saver: the primary line alone is emitted and appended to the file. -/
theorem translation_error_degrades_witness :
    MicWorker.runCycle true false plBackendC7 failingGenC7
        ⟨[], "12:00:00", 1, "12-01", "S1"⟩
        ⟨900, 1, 0, some 0, [⟨"talk1-12-00.txt", ["# Session started S0"], true⟩]⟩ =
      .ok (some (formatLine "12:00:00" "pl" "czesc"),
        ⟨900, 1, 0, some 0,
          [⟨"talk1-12-00.txt",
            ["# Session started S0", formatLine "12:00:00" "pl" "czesc"], true⟩]⟩) :=
  (translation_error_degrades false plBackendC7 failingGenC7
      ⟨[], "12:00:00", 1, "12-01", "S1"⟩
      ⟨900, 1, 0, some 0, [⟨"talk1-12-00.txt", ["# Session started S0"], true⟩]⟩
      ⟨900, 1, 0, some 0,
        [⟨"talk1-12-00.txt",
          ["# Session started S0", formatLine "12:00:00" "pl" "czesc"], true⟩]⟩
      ⟨"czesc", "pl", 1, [⟨" czesc"⟩]⟩ "backend failure"
      rfl (by decide) (Or.inl rfl) rfl
      (by unfold AutoSaver.write; norm_num)).1

/-- C8: a cycle whose post-fallback text is empty emits nothing and leaves
the saver state — file contents, rotation index and rotation clock —
completely unchanged; the loop just proceeds with the remaining
iterations. -/
theorem empty_text_skips (translateFlag forceDe : Bool) (backend : WhisperBackend)
    (gen : MarianGen) (c : CycleInput) (saver : AutoSaver) (r : TranscriptionResult)
    (hrec : MicWorker.recognize forceDe backend c.audio16 = .ok r)
    (htext : r.text = "") :
    MicWorker.runCycle translateFlag forceDe backend gen c saver = .ok (none, saver) ∧
    ∀ cs, MicWorker.runLoop translateFlag forceDe backend gen (c :: cs) saver =
      MicWorker.runLoop translateFlag forceDe backend gen cs saver := by
  have hcyc : MicWorker.runCycle translateFlag forceDe backend gen c saver =
      .ok (none, saver) := by
    unfold MicWorker.runCycle
    rw [hrec, exceptBind_ok, if_pos htext]
    rfl
  refine ⟨hcyc, ?_⟩
  intro cs
  simp only [MicWorker.runLoop]
  rw [hcyc, exceptBind_ok]
  cases hrest : MicWorker.runLoop translateFlag forceDe backend gen cs saver with
  | error e2 => rfl
  | ok p =>
    obtain ⟨lines, saverF⟩ := p
    rfl

/-- C8 (witness): a silent block (empty text after the forced-"de"
fallback) leaves a concrete saver untouched and skips the iteration. -/
theorem empty_text_skips_witness :
    MicWorker.runCycle true true silentBackendC8 okGenC8 ⟨[], "12:00:00", 5, "12-00", "S1"⟩
        ⟨900, 1, 0, some 0, [⟨"talk1-12-00.txt", ["# Session started S0"], true⟩]⟩ =
      .ok (none, ⟨900, 1, 0, some 0, [⟨"talk1-12-00.txt", ["# Session started S0"], true⟩]⟩) ∧
    MicWorker.runLoop true true silentBackendC8 okGenC8 [⟨[], "12:00:00", 5, "12-00", "S1"⟩]
        ⟨900, 1, 0, some 0, [⟨"talk1-12-00.txt", ["# Session started S0"], true⟩]⟩ =
      MicWorker.runLoop true true silentBackendC8 okGenC8 []
        ⟨900, 1, 0, some 0, [⟨"talk1-12-00.txt", ["# Session started S0"], true⟩]⟩ :=
  ⟨(empty_text_skips true true silentBackendC8 okGenC8 ⟨[], "12:00:00", 5, "12-00", "S1"⟩
      ⟨900, 1, 0, some 0, [⟨"talk1-12-00.txt", ["# Session started S0"], true⟩]⟩
      ⟨"", "de", 0, []⟩ rfl rfl).1,
   (empty_text_skips true true silentBackendC8 okGenC8 ⟨[], "12:00:00", 5, "12-00", "S1"⟩
      ⟨900, 1, 0, some 0, [⟨"talk1-12-00.txt", ["# Session started S0"], true⟩]⟩
      ⟨"", "de", 0, []⟩ rfl rfl).2 []⟩

/-- Closing a handle in place preserves the number of files. -/
theorem closeHandleAt_length (hs : List Handle) (i : Nat) :
    (closeHandleAt hs i).length = hs.length := by
  unfold closeHandleAt
  cases hs[i]? <;> simp

/-- Rotation on a saver that holds a handle: close it, bump the index,
reset the clock, open the next file. -/
theorem rotate_eq (s : AutoSaver) (i : Nat) (hfh : s.fh = some i) (now : ℚ)
    (hhmm iso : String) :
    s.rotate now hhmm iso =
      some (AutoSaver.openNew
        { s with handles := closeHandleAt s.handles i, idx := s.idx + 1, t0 := now }
        hhmm iso) := by
  unfold AutoSaver.rotate
  rw [hfh]

/-- C3: a `write` on a saver holding an open handle always succeeds, and
rotates exactly when wall time since the last rotation has reached the
interval: then the index grows by exactly one, the rotation clock is reset
to now, exactly one new file is opened with the header line as its first
line and becomes the current handle, and the old file is closed after
receiving the written line.  Otherwise index, clock, current handle and
file count are all unchanged and the line is appended to the open file. -/
theorem write_rotation (s : AutoSaver) (line : String) (now : ℚ) (hhmm iso : String)
    (i : Nat) (h : Handle) (hfh : s.fh = some i) (hget : s.handles[i]? = some h)
    (hopen : h.isOpen = true) :
    ∃ s', s.write line now hhmm iso = some s' ∧
      (s.interval ≤ now - s.t0 →
        s'.idx = s.idx + 1 ∧ s'.t0 = now ∧
        s'.handles.length = s.handles.length + 1 ∧
        s'.handles[s.handles.length]? =
          some ⟨sessionFileName (s.idx + 1) hhmm, [sessionHeader iso], true⟩ ∧
        s'.fh = some s.handles.length ∧
        s'.handles[i]? = some ⟨h.name, h.lines ++ [line], false⟩) ∧
      (¬ s.interval ≤ now - s.t0 →
        s'.idx = s.idx ∧ s'.t0 = s.t0 ∧ s'.fh = s.fh ∧
        s'.handles.length = s.handles.length ∧
        s'.handles[i]? = some ⟨h.name, h.lines ++ [line], true⟩) := by
  have hi : i < s.handles.length := by
    rcases List.getElem?_eq_some_iff.mp hget with ⟨hlt, _⟩
    exact hlt
  have hwrite : s.write line now hhmm iso =
      if s.interval ≤ now - s.t0 then
        AutoSaver.rotate
          { s with handles := s.handles.set i ⟨h.name, h.lines ++ [line], h.isOpen⟩ }
          now hhmm iso
      else some { s with handles := s.handles.set i ⟨h.name, h.lines ++ [line], h.isOpen⟩ } := by
    unfold AutoSaver.write
    simp only [hfh, hget, hopen, if_true]
  have hset : i < (s.handles.set i ⟨h.name, h.lines ++ [line], h.isOpen⟩).length := by
    rw [List.length_set]
    exact hi
  have hclose : closeHandleAt (s.handles.set i ⟨h.name, h.lines ++ [line], h.isOpen⟩) i =
      s.handles.set i ⟨h.name, h.lines ++ [line], false⟩ := by
    unfold closeHandleAt
    rw [List.getElem?_set_self hi]
    exact List.set_set _ _ _ _
  have hlenc : (closeHandleAt
      (s.handles.set i ⟨h.name, h.lines ++ [line], h.isOpen⟩) i).length =
      s.handles.length := by
    rw [closeHandleAt_length, List.length_set]
  have hrot := rotate_eq { s with handles := s.handles.set i ⟨h.name, h.lines ++ [line], h.isOpen⟩ } i hfh now hhmm iso
  by_cases hcond : s.interval ≤ now - s.t0
  · -- rotation branch
    refine ⟨_, by rw [hwrite, if_pos hcond, hrot], fun _ => ?_, fun hn => absurd hcond hn⟩
    refine ⟨rfl, rfl, ?_, ?_, ?_, ?_⟩
    · show ((closeHandleAt (s.handles.set i ⟨h.name, h.lines ++ [line], h.isOpen⟩) i) ++
          [(⟨sessionFileName (s.idx + 1) hhmm, [sessionHeader iso], true⟩ : Handle)]).length =
        s.handles.length + 1
      rw [List.length_append, hlenc]
      rfl
    · show ((closeHandleAt (s.handles.set i ⟨h.name, h.lines ++ [line], h.isOpen⟩) i) ++
          [(⟨sessionFileName (s.idx + 1) hhmm, [sessionHeader iso], true⟩ :
            Handle)])[s.handles.length]? =
        some ⟨sessionFileName (s.idx + 1) hhmm, [sessionHeader iso], true⟩
      rw [← hlenc, List.getElem?_concat_length]
    · show some (closeHandleAt
          (s.handles.set i ⟨h.name, h.lines ++ [line], h.isOpen⟩) i).length =
        some s.handles.length
      rw [hlenc]
    · show ((closeHandleAt (s.handles.set i ⟨h.name, h.lines ++ [line], h.isOpen⟩) i) ++
          [(⟨sessionFileName (s.idx + 1) hhmm, [sessionHeader iso], true⟩ : Handle)])[i]? =
        some ⟨h.name, h.lines ++ [line], false⟩
      rw [List.getElem?_append_left (by rw [hlenc]; exact hi), hclose]
      exact List.getElem?_set_self hi
  · -- no rotation
    refine ⟨_, by rw [hwrite, if_neg hcond], fun hc => absurd hc hcond, fun _ => ?_⟩
    refine ⟨rfl, rfl, rfl, by rw [List.length_set], ?_⟩
    show (s.handles.set i ⟨h.name, h.lines ++ [line], h.isOpen⟩)[i]? =
      some ⟨h.name, h.lines ++ [line], true⟩
    rw [hopen] at hset ⊢
    exact List.getElem?_set_self hi

/-- C3 (witness): a fresh saver with a 900-second interval, written exactly
900 seconds after start: the theorem applies with all hypotheses
discharged by evaluation. -/
theorem write_rotation_witness :
    ∃ s', AutoSaver.write
        ⟨900, 1, 0, some 0, [⟨"talk1-10-00.txt", ["# Session started S0"], true⟩]⟩
        "x" 900 "10-15" "S1" = some s' ∧
      ((900 : ℚ) ≤ 900 - 0 →
        s'.idx = 1 + 1 ∧ s'.t0 = 900 ∧
        s'.handles.length = 1 + 1 ∧
        s'.handles[1]? = some ⟨sessionFileName (1 + 1) "10-15", [sessionHeader "S1"], true⟩ ∧
        s'.fh = some 1 ∧
        s'.handles[0]? = some ⟨"talk1-10-00.txt", ["# Session started S0"] ++ ["x"], false⟩) ∧
      (¬ (900 : ℚ) ≤ 900 - 0 →
        s'.idx = 1 ∧ s'.t0 = 0 ∧ s'.fh = some 0 ∧
        s'.handles.length = 1 ∧
        s'.handles[0]? = some ⟨"talk1-10-00.txt", ["# Session started S0"] ++ ["x"], true⟩) := by
  have h := write_rotation
    ⟨900, 1, 0, some 0, [⟨"talk1-10-00.txt", ["# Session started S0"], true⟩]⟩
    "x" 900 "10-15" "S1" 0 ⟨"talk1-10-00.txt", ["# Session started S0"], true⟩
    rfl rfl rfl
  exact h

/-- Helper equation: a `write` while no handle is held raises. -/
theorem write_fh_none (s : AutoSaver) (hfh : s.fh = none) (line : String) (now : ℚ)
    (hhmm iso : String) : s.write line now hhmm iso = none := by
  unfold AutoSaver.write
  rw [hfh]

/-- Helper equation: a `write` whose held index has no file raises. -/
theorem write_no_handle (s : AutoSaver) (i : Nat) (hfh : s.fh = some i)
    (hget : s.handles[i]? = none) (line : String) (now : ℚ) (hhmm iso : String) :
    s.write line now hhmm iso = none := by
  unfold AutoSaver.write
  simp only [hfh, hget]

/-- Helper equation: a `write` to a closed file raises. -/
theorem write_closed (s : AutoSaver) (i : Nat) (h : Handle) (hfh : s.fh = some i)
    (hget : s.handles[i]? = some h) (hcl : h.isOpen = false) (line : String) (now : ℚ)
    (hhmm iso : String) : s.write line now hhmm iso = none := by
  unfold AutoSaver.write
  simp only [hfh, hget, hcl, Bool.false_eq_true, if_false]

/-- Helper equation: a `write` to the open current file appends the line
and then rotates exactly when the interval has elapsed. -/
theorem write_eq (s : AutoSaver) (i : Nat) (h : Handle) (hfh : s.fh = some i)
    (hget : s.handles[i]? = some h) (hopen : h.isOpen = true) (line : String) (now : ℚ)
    (hhmm iso : String) :
    s.write line now hhmm iso =
      if s.interval ≤ now - s.t0 then
        AutoSaver.rotate
          { s with handles := s.handles.set i ⟨h.name, h.lines ++ [line], h.isOpen⟩ }
          now hhmm iso
      else some { s with handles := s.handles.set i ⟨h.name, h.lines ++ [line], h.isOpen⟩ } := by
  unfold AutoSaver.write
  simp only [hfh, hget, hopen, if_true]

/-- Under the invariant, closing the held handle leaves every file
closed. -/
theorem inv_allClosed (s : AutoSaver) (hs : s.Inv) (i : Nat) (hfh : s.fh = some i) :
    ∀ (j : Nat) (h' : Handle), (closeHandleAt s.handles i)[j]? = some h' →
      h'.isOpen = false := by
  intro j h' hj
  unfold closeHandleAt at hj
  cases hgi : s.handles[i]? with
  | none =>
    rw [hgi] at hj
    cases hb : h'.isOpen with
    | false => rfl
    | true =>
      have h2 := (hs j h' hj).mp hb
      rw [hfh] at h2
      injection h2 with hh
      subst hh
      rw [hgi] at hj
      cases hj
  | some hcur =>
    rw [hgi] at hj
    by_cases hij : i = j
    · subst hij
      have hi : i < s.handles.length := by
        rcases List.getElem?_eq_some_iff.mp hgi with ⟨hlt, _⟩
        exact hlt
      rw [List.getElem?_set_self hi] at hj
      injection hj with hj2
      rw [← hj2]
    · rw [List.getElem?_set_ne hij] at hj
      cases hb : h'.isOpen with
      | false => rfl
      | true =>
        have h2 := (hs j h' hj).mp hb
        rw [hfh] at h2
        injection h2 with hh
        exact absurd hh hij

/-- Opening a new file on a saver whose files are all closed restores the
invariant. -/
theorem inv_openNew (s : AutoSaver)
    (hall : ∀ (j : Nat) (h : Handle), s.handles[j]? = some h → h.isOpen = false)
    (hhmm iso : String) :
    (s.openNew hhmm iso).Inv := by
  intro j h hj
  show h.isOpen = true ↔ some s.handles.length = some j
  have hj' : (s.handles ++
      [(⟨sessionFileName s.idx hhmm, [sessionHeader iso], true⟩ : Handle)])[j]? = some h := hj
  constructor
  · intro ho
    by_cases hlt : j < s.handles.length
    · rw [List.getElem?_append_left hlt] at hj'
      rw [hall j h hj'] at ho
      cases ho
    · have hge : s.handles.length ≤ j := Nat.le_of_not_lt hlt
      rw [List.getElem?_append_right hge] at hj'
      cases hd : j - s.handles.length with
      | zero =>
        have : j = s.handles.length := by omega
        rw [this]
      | succ n =>
        rw [hd] at hj'
        rw [List.getElem?_cons_succ] at hj'
        cases hj'.symm.trans (List.getElem?_eq_none (by simp))
  · intro hfh2
    injection hfh2 with hh
    have : j = s.handles.length := hh.symm
    subst this
    rw [List.getElem?_concat_length] at hj'
    injection hj' with hj2
    rw [← hj2]

/-- The initial saver satisfies the invariant. -/
theorem inv_init (m : Nat) (now : ℚ) (hhmm iso : String) :
    (AutoSaver.init m now hhmm iso).Inv := by
  apply inv_openNew
  intro j h hj
  cases hj.symm.trans (List.getElem?_eq_none (by simp))

/-- `write` preserves the invariant. -/
theorem inv_write (s s' : AutoSaver) (hs : s.Inv) (line : String) (now : ℚ)
    (hhmm iso : String) (hw : s.write line now hhmm iso = some s') : s'.Inv := by
  cases hfh : s.fh with
  | none =>
    rw [write_fh_none s hfh line now hhmm iso] at hw
    exact Option.noConfusion hw
  | some i =>
    cases hget : s.handles[i]? with
    | none =>
      rw [write_no_handle s i hfh hget line now hhmm iso] at hw
      exact Option.noConfusion hw
    | some h =>
      cases hb : h.isOpen with
      | false =>
        rw [write_closed s i h hfh hget hb line now hhmm iso] at hw
        exact Option.noConfusion hw
      | true =>
        rw [write_eq s i h hfh hget hb line now hhmm iso] at hw
        have hi : i < s.handles.length := by
          rcases List.getElem?_eq_some_iff.mp hget with ⟨hlt, _⟩
          exact hlt
        have hs1 : (AutoSaver.Inv
            { s with handles := s.handles.set i ⟨h.name, h.lines ++ [line], h.isOpen⟩ }) := by
          intro j h' hj
          show h'.isOpen = true ↔ s.fh = some j
          by_cases hij : i = j
          · subst hij
            rw [List.getElem?_set_self hi] at hj
            injection hj with hj2
            rw [← hj2]
            show h.isOpen = true ↔ s.fh = some i
            exact hs i h hget
          · rw [List.getElem?_set_ne hij] at hj
            exact hs j h' hj
        by_cases hcond : s.interval ≤ now - s.t0
        · rw [if_pos hcond] at hw
          -- hw is a rotation of the written state
          have hrot2 := rotate_eq
            { s with handles := s.handles.set i ⟨h.name, h.lines ++ [line], h.isOpen⟩ }
            i hfh now hhmm iso
          rw [hrot2] at hw
          injection hw with hw2
          rw [← hw2]
          apply inv_openNew
          exact inv_allClosed _ hs1 i hfh
        · rw [if_neg hcond] at hw
          injection hw with hw2
          rw [← hw2]
          exact hs1

/-- `rotate` preserves the invariant. -/
theorem inv_rotate (s s' : AutoSaver) (hs : s.Inv) (now : ℚ) (hhmm iso : String)
    (hr : s.rotate now hhmm iso = some s') : s'.Inv := by
  unfold AutoSaver.rotate at hr
  cases hfh : s.fh with
  | none => rw [hfh] at hr; cases hr
  | some i =>
    rw [hfh] at hr
    injection hr with hr2
    rw [← hr2]
    apply inv_openNew
    exact inv_allClosed s hs i hfh

/-- `close` preserves the invariant. -/
theorem inv_close (s : AutoSaver) (hs : s.Inv) : s.close.Inv := by
  unfold AutoSaver.close
  cases hfh : s.fh with
  | none => exact hs
  | some i =>
    intro j h hj
    show h.isOpen = true ↔ none = some j
    constructor
    · intro ho
      have := inv_allClosed s hs i hfh j h hj
      rw [this] at ho
      cases ho
    · intro hh
      cases hh

/-- Every sink operation preserves the invariant. -/
theorem inv_step (s s' : AutoSaver) (hs : s.Inv) (op : SinkOp)
    (h : s.step op = some s') : s'.Inv := by
  cases op with
  | write line now hhmm iso => exact inv_write s s' hs line now hhmm iso h
  | rotate now hhmm iso => exact inv_rotate s s' hs now hhmm iso h
  | close =>
    injection h with h2
    rw [← h2]
    exact inv_close s hs

/-- Any run of sink operations preserves the invariant. -/
theorem inv_runOps (s : AutoSaver) (hs : s.Inv) (ops : List SinkOp) :
    ∀ s', s.runOps ops = some s' → s'.Inv := by
  induction ops generalizing s with
  | nil =>
    intro s' h
    injection h with h2
    rw [← h2]
    exact hs
  | cons op ops ih =>
    intro s' h
    unfold AutoSaver.runOps at h
    cases hstep : s.step op with
    | none => rw [hstep] at h; cases h
    | some s1 =>
      rw [hstep] at h
      exact ih s1 (inv_step s s1 hs op hstep) s' h

/-- A list of handles with at most one open index has at most one open
handle. -/
theorem countP_le_one_of_unique (hs : List Handle)
    (H : ∀ (j k : Nat) (hj hk : Handle), hs[j]? = some hj → hs[k]? = some hk →
        hj.isOpen = true → hk.isOpen = true → j = k) :
    openCount hs ≤ 1 := by
  induction hs with
  | nil => simp [openCount]
  | cons a t ih =>
    by_cases ha : a.isOpen = true
    · have ht : t.countP (·.isOpen) = 0 := by
        rw [List.countP_eq_zero]
        intro x hx hox
        rcases List.mem_iff_getElem?.mp hx with ⟨n, hn⟩
        have h01 : ((a :: t) : List Handle)[n + 1]? = some x := by
          rw [List.getElem?_cons_succ]
          exact hn
        have := H (n + 1) 0 x a h01 List.getElem?_cons_zero hox ha
        omega
      unfold openCount
      rw [List.countP_cons, ht, if_pos ha]
    · have H2 : ∀ (j k : Nat) (hj hk : Handle), t[j]? = some hj → t[k]? = some hk →
          hj.isOpen = true → hk.isOpen = true → j = k := by
        intro j k hj hk h1 h2 h3 h4
        have hj1 : ((a :: t) : List Handle)[j + 1]? = some hj := by
          rw [List.getElem?_cons_succ]; exact h1
        have hk1 : ((a :: t) : List Handle)[k + 1]? = some hk := by
          rw [List.getElem?_cons_succ]; exact h2
        have := H (j + 1) (k + 1) hj hk hj1 hk1 h3 h4
        omega
      unfold openCount at ih ⊢
      rw [List.countP_cons, if_neg (by simpa using ha)]
      simpa using ih H2

/-- Under the invariant at most one handle is open. -/
theorem inv_openCount (s : AutoSaver) (hs : s.Inv) : openCount s.handles ≤ 1 := by
  apply countP_le_one_of_unique
  intro j k hj hk h1 h2 h3 h4
  have e1 := (hs j hj h1).mp h3
  have e2 := (hs k hk h2).mp h4
  rw [e1] at e2
  injection e2

/-- Under the invariant, `close` leaves no handle open. -/
theorem inv_close_openCount (s : AutoSaver) (hs : s.Inv) :
    openCount s.close.handles = 0 := by
  have hall : ∀ (j : Nat) (h : Handle), s.close.handles[j]? = some h →
      h.isOpen = false := by
    cases hfh : s.fh with
    | none =>
      intro j h hj
      have hj' : s.handles[j]? = some h := by
        unfold AutoSaver.close at hj
        rw [hfh] at hj
        exact hj
      cases hb : h.isOpen with
      | false => rfl
      | true =>
        have := (hs j h hj').mp hb
        rw [hfh] at this
        cases this
    | some i =>
      intro j h hj
      have hj' : (closeHandleAt s.handles i)[j]? = some h := by
        unfold AutoSaver.close at hj
        rw [hfh] at hj
        exact hj
      exact inv_allClosed s hs i hfh j h hj'
  rw [openCount, List.countP_eq_zero]
  intro x hx
  rcases List.mem_iff_getElem?.mp hx with ⟨n, hn⟩
  simp [hall n x hn]

/-- After a `close` the saver holds no handle. -/
theorem close_fh_none (s : AutoSaver) : s.close.fh = none := by
  unfold AutoSaver.close
  cases hfh : s.fh with
  | none => exact hfh
  | some i => rfl

/-- Closing a saver that holds no handle is a no-op. -/
theorem close_of_none (t : AutoSaver) (h : t.fh = none) : t.close = t := by
  unfold AutoSaver.close
  rw [h]

/-- C9: in every state reachable from construction by any sequence of
`write`, `rotate` and `close` operations, at most one file handle is open;
a `close` from such a state leaves no handle open; and a second `close` is
a no-op. -/
theorem sink_single_handle (m : Nat) (now : ℚ) (hhmm iso : String) (ops : List SinkOp)
    (s' : AutoSaver) (h : (AutoSaver.init m now hhmm iso).runOps ops = some s') :
    openCount s'.handles ≤ 1 ∧ openCount s'.close.handles = 0 ∧
    s'.close.close = s'.close := by
  have hinv : s'.Inv := inv_runOps _ (inv_init m now hhmm iso) ops s' h
  exact ⟨inv_openCount s' hinv, inv_close_openCount s' hinv,
    close_of_none s'.close (close_fh_none s')⟩

/-- Bind on a present `Option` value reduces to the continuation. -/
theorem optionBind_some {α β : Type} (a : α) (f : α → Option β) :
    (some a).bind f = f a := rfl

/-- C9 (witness): a concrete run — write (no rotation due), rotate, close —
from a fresh saver ends with no open handle, and closing is idempotent. -/
theorem sink_single_handle_witness :
    openCount (AutoSaver.mk (((15 : Nat) : ℚ) * 60) 2 2 none
      [⟨sessionFileName 1 "10-00", [sessionHeader "T0", "a"], false⟩,
       ⟨sessionFileName 2 "10-02", [sessionHeader "T2"], false⟩]).handles ≤ 1 ∧
    openCount (AutoSaver.mk (((15 : Nat) : ℚ) * 60) 2 2 none
      [⟨sessionFileName 1 "10-00", [sessionHeader "T0", "a"], false⟩,
       ⟨sessionFileName 2 "10-02", [sessionHeader "T2"], false⟩]).close.handles = 0 ∧
    (AutoSaver.mk (((15 : Nat) : ℚ) * 60) 2 2 none
      [⟨sessionFileName 1 "10-00", [sessionHeader "T0", "a"], false⟩,
       ⟨sessionFileName 2 "10-02", [sessionHeader "T2"], false⟩]).close.close =
    (AutoSaver.mk (((15 : Nat) : ℚ) * 60) 2 2 none
      [⟨sessionFileName 1 "10-00", [sessionHeader "T0", "a"], false⟩,
       ⟨sessionFileName 2 "10-02", [sessionHeader "T2"], false⟩]).close := by
  have h1 : (AutoSaver.init 15 0 "10-00" "T0").write "a" 1 "10-01" "T1" =
      some (AutoSaver.mk (((15 : Nat) : ℚ) * 60) 1 0 (some 0)
        [⟨sessionFileName 1 "10-00", [sessionHeader "T0", "a"], true⟩]) := by
    rw [write_eq (AutoSaver.init 15 0 "10-00" "T0") 0
      ⟨sessionFileName 1 "10-00", [sessionHeader "T0"], true⟩ rfl List.getElem?_cons_zero rfl
      "a" 1 "10-01" "T1"]
    norm_num [AutoSaver.init, AutoSaver.openNew]
  have h2 : (AutoSaver.mk (((15 : Nat) : ℚ) * 60) 1 0 (some 0)
        [⟨sessionFileName 1 "10-00", [sessionHeader "T0", "a"], true⟩]).rotate
        2 "10-02" "T2" =
      some (AutoSaver.mk (((15 : Nat) : ℚ) * 60) 2 2 (some 1)
        [⟨sessionFileName 1 "10-00", [sessionHeader "T0", "a"], false⟩,
         ⟨sessionFileName 2 "10-02", [sessionHeader "T2"], true⟩]) := rfl
  have h3 : (AutoSaver.mk (((15 : Nat) : ℚ) * 60) 2 2 (some 1)
        [⟨sessionFileName 1 "10-00", [sessionHeader "T0", "a"], false⟩,
         ⟨sessionFileName 2 "10-02", [sessionHeader "T2"], true⟩]).close =
      AutoSaver.mk (((15 : Nat) : ℚ) * 60) 2 2 none
        [⟨sessionFileName 1 "10-00", [sessionHeader "T0", "a"], false⟩,
         ⟨sessionFileName 2 "10-02", [sessionHeader "T2"], false⟩] := rfl
  have h : (AutoSaver.init 15 0 "10-00" "T0").runOps
      [SinkOp.write "a" 1 "10-01" "T1", SinkOp.rotate 2 "10-02" "T2", SinkOp.close] =
      some (AutoSaver.mk (((15 : Nat) : ℚ) * 60) 2 2 none
        [⟨sessionFileName 1 "10-00", [sessionHeader "T0", "a"], false⟩,
         ⟨sessionFileName 2 "10-02", [sessionHeader "T2"], false⟩]) := by
    simp only [AutoSaver.runOps, AutoSaver.step]
    rw [h1, optionBind_some, h2, optionBind_some, h3, optionBind_some]
  exact sink_single_handle 15 0 "10-00" "T0"
    [SinkOp.write "a" 1 "10-01" "T1", SinkOp.rotate 2 "10-02" "T2", SinkOp.close] _ h

end LiveTranscription
